import Mathlib

/-!
Shallow embedding of the Lucr-Crawler ingestion core (Python repository
Ekko0701/Lucr-Crawler) and proofs about it.

Embedded code:
  app/services/db_manager.py   DBManager.save_news, DBManager.update_job_status
  app/messaging/publisher.py   CrawlResultPublisher.publish
  app/messaging/consumer.py    CrawlConsumer._on_message, CrawlConsumer._run_all_crawlers
  app/models/db_models.py      News, CrawlJobModel rows

Modelling conventions:
  * Timestamps (datetime.now()) are abstract ticks (Nat); uuid.uuid4() for
    article ids is a fresh counter threaded through the state.
  * Job statuses are the Strings the code uses ("PENDING", "RUNNING",
    "COMPLETED", "FAILED").
  * The JSON text json.dumps(media_results) stored in the job row is
    modelled by the association list it serialises.
  * External failure points (database session errors, broker connection
    errors on publish/ack/nack, the status re-read) are explicit Boolean
    oracles, one per failure point, so every real execution corresponds to
    one choice of oracles.
  * Every Python function here catches its own exceptions, so the Lean
    functions are total; the only exceptions escaping into the except
    branch of _on_message are json parse errors and a failing basic_ack.
-/

namespace LucrCrawler

/-- A crawled article record, app/models/news.py CrawledNews
(title, content, url, source, published_at, image_url). -/
structure CrawledNews where
  title : String
  content : String
  url : String
  source : String
  publishedAt : Nat
  imageUrl : Option String
deriving DecidableEq

/-- A persisted news row, app/models/db_models.py News: id is generated
(uuid.uuid4 modelled by a counter), crawled_at / created_at / updated_at
are datetime.now() at insertion. -/
structure Article where
  id : Nat
  title : String
  content : String
  url : String
  source : String
  publishedAt : Nat
  crawledAt : Nat
  createdAt : Nat
  updatedAt : Nat
deriving DecidableEq

/-- A crawl-job row, app/models/db_models.py CrawlJobModel. -/
structure Job where
  id : String
  status : String
  totalArticles : Nat
  mediaResults : Option (List (String × Nat))
  errorMessage : Option String
  createdAt : Nat
  updatedAt : Nat
  completedAt : Option Nat
deriving DecidableEq

/-- State threaded through article persistence: the news table, the
uuid/clock supplies, and the commit oracle consumed by successive
insertion attempts (headD true = the next session.commit succeeds). -/
structure CrawlSt where
  articles : List Article
  nextId : Nat
  tick : Nat
  saveOks : List Bool
deriving DecidableEq

/-- The News row that DBManager.save_news builds for a record when the url
is absent: generated id, timestamps from datetime.now(). -/
def newsRow (st : CrawlSt) (nd : CrawledNews) : Article :=
  { id := st.nextId, title := nd.title, content := nd.content, url := nd.url,
    source := nd.source, publishedAt := nd.publishedAt,
    crawledAt := st.tick, createdAt := st.tick, updatedAt := st.tick }

/-- DBManager.save_news (db_manager.py 23-62): check existence by url; if
present return False with no mutation; otherwise insert one new row and
commit. A session error (oracle false) rolls back and returns False. -/
def save_news (st : CrawlSt) (nd : CrawledNews) : CrawlSt × Bool :=
  if st.articles.any (fun a => a.url == nd.url) then
    (st, false)
  else
    let ok := st.saveOks.headD true
    let rest := st.saveOks.tail
    if ok then
      ({ articles := st.articles ++ [newsRow st nd],
         nextId := st.nextId + 1, tick := st.tick + 1, saveOks := rest }, true)
    else
      ({ st with saveOks := rest }, false)

/-- Outcome of one adapter call crawler.crawl(max_news): either the list of
records it returned, or the exception it raised. -/
inductive FetchResult where
  | ok (items : List CrawledNews)
  | err
deriving DecidableEq

/-- The save loop of _run_all_crawlers (consumer.py 312-317): save each
record, counting only the calls that returned True. -/
def saveAll (st : CrawlSt) : List CrawledNews → CrawlSt × Nat
  | [] => (st, 0)
  | n :: rest =>
    let s := save_news st n
    let r := saveAll s.1 rest
    (r.1, (if s.2 then 1 else 0) + r.2)

/-- CrawlConsumer._run_all_crawlers (consumer.py 269-328): drive each
registered crawler in order; a raising crawler contributes tally 0 and the
loop continues; an ok crawler contributes its count of successful saves.
The function is total: the coordinator never raises for one bad source. -/
def runAllCrawlers : List (String × FetchResult) → CrawlSt → CrawlSt × List (String × Nat)
  | [], st => (st, [])
  | (name, FetchResult.err) :: rest, st =>
    let r := runAllCrawlers rest st
    (r.1, (name, 0) :: r.2)
  | (name, FetchResult.ok items) :: rest, st =>
    let s := saveAll st items
    let r := runAllCrawlers rest s.1
    (r.1, (name, s.2) :: r.2)

/-- The six registered crawler names, in loop order (consumer.py 293-300). -/
def registeredNames : List String :=
  ["hankyung", "mk", "edaily", "herald", "chosunbiz", "yahoo"]

/-- The registered crawler list with each fetch outcome supplied by the
environment (the crawl call receives max_articles). -/
def registeredCrawlers (fetch : String → Nat → FetchResult) (maxArticles : Nat) :
    List (String × FetchResult) :=
  registeredNames.map (fun n => (n, fetch n maxArticles))

/-- session.query(CrawlJobModel).filter(id == jid).first(). -/
def findJob (jobs : List Job) (jid : String) : Option Job :=
  jobs.find? (fun j => j.id == jid)

/-- The persisted status of a job, as the reconciliation re-read sees it. -/
def statusOf (jobs : List Job) (jid : String) : Option String :=
  (findJob jobs jid).map Job.status

/-- Python truthiness of the media_results dict: None and the empty dict
are falsy (db_manager.py 93 stores json.dumps(media_results) only then). -/
def mrTruthy : Option (List (String × Nat)) → Bool
  | none => false
  | some l => !l.isEmpty

/-- The field mutations of DBManager.update_job_status on the loaded row
(db_manager.py 88-97): status and updated_at always; total_articles,
media_results, completed_at on COMPLETED; error_message, completed_at on
FAILED; nothing else on any other status. -/
def applyStatus (j : Job) (status : String) (total : Nat)
    (mr : Option (List (String × Nat))) (err : Option String) (now : Nat) : Job :=
  let j1 := { j with status := status, updatedAt := now }
  if status == "COMPLETED" then
    { j1 with totalArticles := total,
              mediaResults := if mrTruthy mr then mr else none,
              completedAt := some now }
  else if status == "FAILED" then
    { j1 with errorMessage := err, completedAt := some now }
  else
    j1

/-- Replace the first row matching the id, as .first() plus commit does. -/
def updateFirst (jid : String) (f : Job → Job) : List Job → List Job
  | [] => []
  | j :: rest => if j.id == jid then f j :: rest else j :: updateFirst jid f rest

/-- DBManager.update_job_status (db_manager.py 64-106). jobId none models a
job_id on which uuid.UUID raises (None or garbage): the exception is caught,
the session rolls back, nothing mutates. ok is the session oracle: false
models any session error, caught with rollback, so the store is unchanged.
A missing job logs and returns with no mutation; otherwise the loaded row
is mutated per applyStatus and committed. -/
def update_job_status (jobs : List Job) (jobId : Option String) (status : String)
    (total : Nat) (mr : Option (List (String × Nat))) (err : Option String)
    (now : Nat) (ok : Bool) : List Job :=
  match jobId with
  | none => jobs
  | some jid =>
    if ok then
      match findJob jobs jid with
      | none => jobs
      | some _ => updateFirst jid (fun j => applyStatus j status total mr err now) jobs
    else
      jobs

/-- An outbound crawl-result message as CrawlResultPublisher.publish builds
it (publisher.py 100-105): jobId, status, totalArticles, and
mediaResults := media_results or the empty dict. -/
structure ResultEvent where
  jobId : Option String
  status : String
  totalArticles : Nat
  mediaResults : List (String × Nat)
deriving DecidableEq

/-- CrawlResultPublisher.publish (publisher.py 76-138): build one message;
if the connection oracle holds, exactly that one message is delivered,
otherwise the error is logged and swallowed (no retry, no raise). -/
def publish (jobId : Option String) (status : String) (total : Nat)
    (mr : Option (List (String × Nat))) (connOk : Bool) : List ResultEvent :=
  let message : ResultEvent :=
    { jobId := jobId, status := status, totalArticles := total,
      mediaResults := mr.getD [] }
  if connOk then [message] else []

/-- A parsed inbound message body. invalid models a body on which
json.loads or .get raises (not JSON, or not an object). obj carries
message.get("jobId") (none when the key is absent) and
message.get("maxArticles") before its default of 50 is applied. -/
inductive Body where
  | invalid
  | obj (jobId : Option String) (maxArticles : Option Nat)
deriving DecidableEq

/-- The environment of one _on_message invocation: each fetch outcome and
one Boolean oracle per external failure point, plus the clock and the text
str(e) recorded on a FAILED transition. -/
structure Env where
  fetch : String → Nat → FetchResult
  dbOkR : Bool
  dbOkC : Bool
  dbOkF : Bool
  pubOkC : Bool
  pubOkF : Bool
  ackOk : Bool
  nackOk : Bool
  rereadOk : Bool
  now : Nat
  errMsg : String

/-- Everything observable about one _on_message invocation: the final job
store, the final news table, the result events actually delivered, whether
basic_ack succeeded, whether basic_nack succeeded, and whether the crawler
loop was entered. -/
structure Outcome where
  jobs : List Job
  articles : List Article
  events : List ResultEvent
  acked : Bool
  nacked : Bool
  crawlRan : Bool
deriving DecidableEq

/-- Step 2 of _on_message (consumer.py 193): the job store after
update_job_status(job_id, "RUNNING"). -/
def jobsAfterRunning (jobs : List Job) (jobId : Option String) (env : Env) : List Job :=
  update_job_status jobs jobId "RUNNING" 0 none none env.now env.dbOkR

/-- Step 3 of _on_message (consumer.py 199): run the six registered
crawlers against the article store. -/
def crawlPhase (st : CrawlSt) (env : Env) (maxArticles : Nat) :
    CrawlSt × List (String × Nat) :=
  runAllCrawlers (registeredCrawlers env.fetch maxArticles) st

/-- total = sum(media_results.values()) (consumer.py 203). -/
def sumValues (mr : List (String × Nat)) : Nat :=
  (mr.map Prod.snd).sum

/-- The job store after Steps 2 and 5 of _on_message (consumer.py 193 and
207-211): RUNNING, then COMPLETED with the total and the mapping. This is
the persisted job state an exception caught later observes. -/
def jobsAfterUpdates (jobs : List Job) (st : CrawlSt) (jobId : Option String)
    (maxArticles : Nat) (env : Env) : List Job :=
  update_job_status (jobsAfterRunning jobs jobId env) jobId "COMPLETED"
    (sumValues (crawlPhase st env maxArticles).2)
    (some (crawlPhase st env maxArticles).2) none env.now env.dbOkC

/-- The except branch of _on_message (consumer.py 227-267). If job_id is
truthy (a non-empty string), re-read the persisted status (none when the
re-read session itself raises); if it is COMPLETED, only log a warning;
otherwise record FAILED with str(e) and publish a FAILED event. Either
way attempt basic_nack(requeue=False), swallowing its own failure. -/
def handleException (jobs : List Job) (articles : List Article)
    (events : List ResultEvent) (jobId : Option String) (crawlRan : Bool)
    (env : Env) : Outcome :=
  match jobId with
  | some jid =>
    if jid == "" then
      { jobs := jobs, articles := articles, events := events,
        acked := false, nacked := env.nackOk, crawlRan := crawlRan }
    else
      let currentStatus : Option String :=
        if env.rereadOk then statusOf jobs jid else none
      if currentStatus == some "COMPLETED" then
        { jobs := jobs, articles := articles, events := events,
          acked := false, nacked := env.nackOk, crawlRan := crawlRan }
      else
        { jobs := update_job_status jobs jobId "FAILED" 0 none
                    (some env.errMsg) env.now env.dbOkF,
          articles := articles,
          events := events ++ publish jobId "FAILED" 0 none env.pubOkF,
          acked := false, nacked := env.nackOk, crawlRan := crawlRan }
  | none =>
    { jobs := jobs, articles := articles, events := events,
      acked := false, nacked := env.nackOk, crawlRan := crawlRan }

/-- CrawlConsumer._on_message (consumer.py 153-267). A body whose parsing
raises goes straight to the except branch with job_id still None. A parsed
body runs: RUNNING update, the crawler loop, total, COMPLETED update, the
COMPLETED publish (which never raises), then basic_ack; if the ack raises
(oracle false) the except branch runs against the already-updated stores. -/
def onMessage (jobs : List Job) (st : CrawlSt) (body : Body) (env : Env) : Outcome :=
  match body with
  | Body.invalid =>
    { jobs := jobs, articles := st.articles, events := [],
      acked := false, nacked := env.nackOk, crawlRan := false }
  | Body.obj jobId maxArticles =>
    let maxA := maxArticles.getD 50
    let cr := crawlPhase st env maxA
    let jobs2 := jobsAfterUpdates jobs st jobId maxA env
    let events1 := publish jobId "COMPLETED" (sumValues cr.2) (some cr.2) env.pubOkC
    if env.ackOk then
      { jobs := jobs2, articles := cr.1.articles, events := events1,
        acked := true, nacked := false, crawlRan := true }
    else
      handleException jobs2 cr.1.articles events1 jobId true env

/-- A job row still PENDING, as the external producer creates it. -/
def jobPending : Job :=
  { id := "J1", status := "PENDING", totalArticles := 0, mediaResults := none,
    errorMessage := none, createdAt := 0, updatedAt := 0, completedAt := none }

/-- A job row already in the terminal status COMPLETED. -/
def jobCompleted : Job :=
  { id := "J1", status := "COMPLETED", totalArticles := 7,
    mediaResults := some [("hankyung", 7)], errorMessage := none,
    createdAt := 0, updatedAt := 0, completedAt := some 0 }

/-- An empty article store with fresh id/clock supplies and no induced
persistence failures. -/
def emptySt : CrawlSt :=
  { articles := [], nextId := 0, tick := 0, saveOks := [] }

/-- An environment where every external interaction succeeds and every
crawler raises (so the crawl contributes nothing). -/
def envAllOk : Env :=
  { fetch := fun _ _ => FetchResult.err, dbOkR := true, dbOkC := true,
    dbOkF := true, pubOkC := true, pubOkF := true, ackOk := true,
    nackOk := true, rereadOk := true, now := 1, errMsg := "boom" }

/-- envAllOk except that basic_ack raises: the lost-acknowledgment race. -/
def envLostAck : Env :=
  { fetch := fun _ _ => FetchResult.err, dbOkR := true, dbOkC := true,
    dbOkF := true, pubOkC := true, pubOkF := true, ackOk := false,
    nackOk := true, rereadOk := true, now := 1, errMsg := "boom" }

/-- A concrete crawled record used by witnesses. -/
def newsA : CrawledNews :=
  { title := "Market rallies", content := "body", url := "https://x.test/a",
    source := "hankyung", publishedAt := 3, imageUrl := none }

/-- A second concrete crawled record with a distinct url. -/
def newsB : CrawledNews :=
  { title := "Rates on hold", content := "body", url := "https://x.test/b",
    source := "hankyung", publishedAt := 4, imageUrl := none }

/-- An environment for a genuinely failing run: hankyung fetches one
record (so articles are inserted before the failure), every other crawler
raises, and basic_ack then raises while the status re-read succeeds. -/
def envFailing : Env :=
  { fetch := fun n _ => if n == "hankyung" then FetchResult.ok [newsA] else FetchResult.err,
    dbOkR := true, dbOkC := true, dbOkF := true, pubOkC := true, pubOkF := true,
    ackOk := false, nackOk := true, rereadOk := true, now := 1, errMsg := "boom" }

/-! ## Helper lemmas shared across the claims -/

/-- Updating a job that is not in the store mutates nothing, whatever the
status and the session outcome. -/
theorem update_job_status_missing (jobs : List Job) (jid : String) (s : String)
    (t : Nat) (mr : Option (List (String × Nat))) (e : Option String)
    (now : Nat) (ok : Bool) (h : findJob jobs jid = none) :
    update_job_status jobs (some jid) s t mr e now ok = jobs := by
  cases ok <;> simp [update_job_status, h]

/-- applyStatus never changes the id column. -/
theorem applyStatus_id (j : Job) (s : String) (t : Nat)
    (mr : Option (List (String × Nat))) (e : Option String) (now : Nat) :
    (applyStatus j s t mr e now).id = j.id := by
  unfold applyStatus
  split <;> [rfl; split <;> rfl]

/-- applyStatus always stores the requested status. -/
theorem applyStatus_status (j : Job) (s : String) (t : Nat)
    (mr : Option (List (String × Nat))) (e : Option String) (now : Nat) :
    (applyStatus j s t mr e now).status = s := by
  unfold applyStatus
  split <;> [rfl; split <;> rfl]

/-- Looking up the replaced row after updateFirst yields the mutated row,
provided the mutation keeps the id. -/
theorem findJob_updateFirst (jobs : List Job) (jid : String) (f : Job → Job)
    (j : Job) (h : findJob jobs jid = some j) (hid : ∀ x, (f x).id = x.id) :
    findJob (updateFirst jid f jobs) jid = some (f j) := by
  induction jobs with
  | nil => simp [findJob] at h
  | cons k rest ih =>
    by_cases hk : (k.id == jid) = true
    · have hj : k = j := by
        simp [findJob, List.find?, hk] at h
        exact h
      subst hj
      simp [updateFirst, hk, findJob, List.find?, hid k]
    · have h' : findJob rest jid = some j := by
        simpa [findJob, List.find?, hk] using h
      have goal := ih h'
      simp only [findJob] at goal
      simp [updateFirst, hk, findJob, List.find?, goal]

/-- The coordinator is compositional: running a concatenated crawler list
threads the article store left to right and concatenates the tallies. -/
theorem runAllCrawlers_append (xs ys : List (String × FetchResult)) (st : CrawlSt) :
    runAllCrawlers (xs ++ ys) st
      = ((runAllCrawlers ys (runAllCrawlers xs st).1).1,
         (runAllCrawlers xs st).2 ++ (runAllCrawlers ys (runAllCrawlers xs st).1).2) := by
  induction xs generalizing st with
  | nil => simp [runAllCrawlers]
  | cons hd tl ih =>
    obtain ⟨n, fr⟩ := hd
    cases fr with
    | ok items => simp [runAllCrawlers, ih]
    | err => simp [runAllCrawlers, ih]

/-- The returned mapping has exactly one entry per crawler, in loop order. -/
theorem runAllCrawlers_keys (cs : List (String × FetchResult)) (st : CrawlSt) :
    (runAllCrawlers cs st).2.map Prod.fst = cs.map Prod.fst := by
  induction cs generalizing st with
  | nil => rfl
  | cons hd tl ih =>
    obtain ⟨n, fr⟩ := hd
    cases fr with
    | ok items => simp [runAllCrawlers, ih]
    | err => simp [runAllCrawlers, ih]

/-! ## C4: Article-insert idempotence on URL -/

/-- C4. The article-insert operation is idempotent on URL: when the url is
absent and the commit succeeds, save_news inserts exactly one new row (with
the generated id and the timestamps of newsRow) and returns true, and
calling it again with the same url returns false and mutates nothing;
whenever an article with the url already exists, save_news returns false
with no mutation. -/
theorem save_news_idempotent_on_url (st : CrawlSt) (nd : CrawledNews)
    (habs : st.articles.any (fun a => a.url == nd.url) = false)
    (hok : st.saveOks.headD true = true) :
    save_news st nd
      = ({ articles := st.articles ++ [newsRow st nd], nextId := st.nextId + 1,
           tick := st.tick + 1, saveOks := st.saveOks.tail }, true)
    ∧ save_news (save_news st nd).1 nd = ((save_news st nd).1, false)
    ∧ (∀ st2 nd2, st2.articles.any (fun a => a.url == nd2.url) = true →
        save_news st2 nd2 = (st2, false)) := by
  have hok' : st.saveOks.head?.getD true = true := by
    simpa [List.headD_eq_head?] using hok
  have h1 : save_news st nd
      = ({ articles := st.articles ++ [newsRow st nd], nextId := st.nextId + 1,
           tick := st.tick + 1, saveOks := st.saveOks.tail }, true) := by
    simp [save_news, habs, hok']
  refine ⟨h1, ?_, ?_⟩
  · rw [h1]
    simp [save_news, newsRow]
  · intro st2 nd2 h
    simp [save_news, h]

/-- Witness for C4 at a concrete empty store and record. -/
theorem save_news_idempotent_on_url_witness :
    (emptySt.articles.any (fun a => a.url == newsA.url) = false)
    ∧ (emptySt.saveOks.headD true = true)
    ∧ (save_news emptySt newsA
        = ({ articles := emptySt.articles ++ [newsRow emptySt newsA],
             nextId := emptySt.nextId + 1, tick := emptySt.tick + 1,
             saveOks := emptySt.saveOks.tail }, true)
       ∧ save_news (save_news emptySt newsA).1 newsA
           = ((save_news emptySt newsA).1, false)
       ∧ (∀ st2 nd2, st2.articles.any (fun a => a.url == nd2.url) = true →
            save_news st2 nd2 = (st2, false))) :=
  ⟨by decide, by decide,
   save_news_idempotent_on_url emptySt newsA (by decide) (by decide)⟩

/-! ## C5: Partial-failure isolation in the coordinator -/

/-- C5. Partial-failure isolation: for any run whose crawler list contains
a raising source, that source tallies 0, the article store is untouched by
it, the remaining sources are processed exactly as they would be from the
same store, and every source keeps exactly one entry in the returned
mapping, in order; instantiated at the registered six-crawler list, the
mapping keys are exactly the registered names. The coordinator is a total
function, so one bad source never makes the call itself fail. -/
theorem coordinator_isolates_source_failure (pre rest : List (String × FetchResult))
    (name : String) (st : CrawlSt) :
    runAllCrawlers (pre ++ (name, FetchResult.err) :: rest) st
      = ((runAllCrawlers rest (runAllCrawlers pre st).1).1,
         (runAllCrawlers pre st).2 ++ (name, 0)
           :: (runAllCrawlers rest (runAllCrawlers pre st).1).2)
    ∧ (runAllCrawlers (pre ++ (name, FetchResult.err) :: rest) st).2.map Prod.fst
        = (pre ++ (name, FetchResult.err) :: rest).map Prod.fst
    ∧ (∀ (f : String → Nat → FetchResult) (mx : Nat) (st2 : CrawlSt),
        (runAllCrawlers (registeredCrawlers f mx) st2).2.map Prod.fst
          = registeredNames) := by
  refine ⟨?_, runAllCrawlers_keys _ _, ?_⟩
  · rw [runAllCrawlers_append]
    simp [runAllCrawlers]
  · intro f mx st2
    rw [registeredCrawlers, runAllCrawlers_keys, List.map_map]
    have hcomp : (Prod.fst ∘ fun n : String => (n, f n mx)) = id := rfl
    rw [hcomp, List.map_id]

/-- Updating an existing job stores exactly the applyStatus mutation of the
loaded row. -/
theorem findJob_update (jobs : List Job) (jid : String) (j : Job) (s : String)
    (t : Nat) (mr : Option (List (String × Nat))) (e : Option String) (now : Nat)
    (hfind : findJob jobs jid = some j) :
    findJob (update_job_status jobs (some jid) s t mr e now true) jid
      = some (applyStatus j s t mr e now) := by
  have h : update_job_status jobs (some jid) s t mr e now true
      = updateFirst jid (fun x => applyStatus x s t mr e now) jobs := by
    simp [update_job_status, hfind]
  rw [h]
  exact findJob_updateFirst jobs jid _ j hfind (fun x => applyStatus_id x s t mr e now)

/-! ## C8: Frame conditions of update_job_status -/

/-- C8. updateStatus loads the job by id; a missing job is a logged no-op,
a session error rolls back with no mutation; an existing job receives
exactly the applyStatus mutation, which always updates updatedAt, sets
completedAt exactly on the COMPLETED and FAILED transitions, and on the
RUNNING transition changes status and updatedAt only, leaving
totalArticles, mediaResults, errorMessage and completedAt unchanged. -/
theorem update_job_status_frame (jobs : List Job) (jid : String) (j : Job)
    (s : String) (t : Nat) (mr : Option (List (String × Nat))) (e : Option String)
    (now : Nat) (hfind : findJob jobs jid = some j) :
    (∀ jobs2 s2 t2 mr2 e2 now2, findJob jobs2 jid = none →
        update_job_status jobs2 (some jid) s2 t2 mr2 e2 now2 true = jobs2)
    ∧ update_job_status jobs (some jid) s t mr e now false = jobs
    ∧ findJob (update_job_status jobs (some jid) s t mr e now true) jid
        = some (applyStatus j s t mr e now)
    ∧ (applyStatus j s t mr e now).updatedAt = now
    ∧ ((s = "COMPLETED" ∨ s = "FAILED") →
        (applyStatus j s t mr e now).completedAt = some now)
    ∧ applyStatus j "RUNNING" t mr e now
        = { j with status := "RUNNING", updatedAt := now } := by
  refine ⟨?_, ?_, findJob_update jobs jid j s t mr e now hfind, ?_, ?_, ?_⟩
  · intro jobs2 s2 t2 mr2 e2 now2 h
    exact update_job_status_missing jobs2 jid s2 t2 mr2 e2 now2 true h
  · simp [update_job_status]
  · unfold applyStatus
    split
    · rfl
    · split <;> rfl
  · rintro (h | h) <;> subst h <;> rfl
  · rfl

/-- Witness for C8 at a concrete single-job store. -/
theorem update_job_status_frame_witness :
    findJob [jobPending] "J1" = some jobPending
    ∧ ((∀ jobs2 s2 t2 mr2 e2 now2, findJob jobs2 "J1" = none →
          update_job_status jobs2 (some "J1") s2 t2 mr2 e2 now2 true = jobs2)
       ∧ update_job_status [jobPending] (some "J1") "COMPLETED" 3
           (some [("hankyung", 3)]) none 9 false = [jobPending]
       ∧ findJob (update_job_status [jobPending] (some "J1") "COMPLETED" 3
             (some [("hankyung", 3)]) none 9 true) "J1"
           = some (applyStatus jobPending "COMPLETED" 3 (some [("hankyung", 3)]) none 9)
       ∧ (applyStatus jobPending "COMPLETED" 3 (some [("hankyung", 3)]) none 9).updatedAt = 9
       ∧ (("COMPLETED" = "COMPLETED" ∨ "COMPLETED" = "FAILED") →
           (applyStatus jobPending "COMPLETED" 3 (some [("hankyung", 3)]) none 9).completedAt
             = some 9)
       ∧ applyStatus jobPending "RUNNING" 3 (some [("hankyung", 3)]) none 9
           = { jobPending with status := "RUNNING", updatedAt := 9 }) :=
  ⟨by decide,
   update_job_status_frame [jobPending] "J1" jobPending "COMPLETED" 3
     (some [("hankyung", 3)]) none 9 (by decide)⟩

/-! ## C3: Status monotonicity (refuted and amended) -/

/-- C3 counterexample. A COMPLETED job is not terminal in the code: the
Step-2 write of a reprocessed (redelivered) message for the same jobId,
update_job_status(job_id, "RUNNING"), overwrites the persisted COMPLETED
status with RUNNING. -/
theorem terminal_status_overwrite_counterexample :
    statusOf [jobCompleted] "J1" = some "COMPLETED"
    ∧ statusOf (jobsAfterRunning [jobCompleted] (some "J1") envAllOk) "J1"
        = some "RUNNING" := by decide

/-- C3 amended. update_job_status guards nothing: whenever the job exists
and the session succeeds, the stored status becomes exactly the requested
one, whatever status (terminal included) was stored before; so the
monotonicity of PENDING to RUNNING to COMPLETED/FAILED holds only within
one successful handler pass, not across redeliveries. -/
theorem update_overwrites_any_status (jobs : List Job) (jid : String) (j : Job)
    (s : String) (t : Nat) (mr : Option (List (String × Nat))) (e : Option String)
    (now : Nat) (hfind : findJob jobs jid = some j) :
    statusOf (update_job_status jobs (some jid) s t mr e now true) jid = some s := by
  unfold statusOf
  rw [findJob_update jobs jid j s t mr e now hfind]
  simp [applyStatus_status]

/-- Witness for the amended C3: the RUNNING write on a COMPLETED job. -/
theorem update_overwrites_any_status_witness :
    findJob [jobCompleted] "J1" = some jobCompleted
    ∧ statusOf (update_job_status [jobCompleted] (some "J1") "RUNNING" 0 none none 5 true)
        "J1" = some "RUNNING" :=
  ⟨by decide,
   update_overwrites_any_status [jobCompleted] "J1" jobCompleted "RUNNING" 0 none
     none 5 (by decide)⟩

/-! ## C2: Unknown jobId (refuted and amended) -/

/-- C2 counterexample. A request for a jobId with no matching record is not
dropped: with an empty job store the handler still enters the crawler loop,
publishes a COMPLETED result event, positively acknowledges the message and
sends no negative acknowledgment (the job store itself stays unmutated). -/
theorem unknown_job_ack_counterexample :
    (onMessage [] emptySt (Body.obj (some "J1") (some 10)) envAllOk).jobs = []
    ∧ (onMessage [] emptySt (Body.obj (some "J1") (some 10)) envAllOk).acked = true
    ∧ (onMessage [] emptySt (Body.obj (some "J1") (some 10)) envAllOk).nacked = false
    ∧ (onMessage [] emptySt (Body.obj (some "J1") (some 10)) envAllOk).crawlRan = true
    ∧ (onMessage [] emptySt (Body.obj (some "J1") (some 10)) envAllOk).events
        = [{ jobId := some "J1", status := "COMPLETED", totalArticles := 0,
             mediaResults := [("hankyung", 0), ("mk", 0), ("edaily", 0),
                              ("herald", 0), ("chosunbiz", 0), ("yahoo", 0)] }] := by
  decide

/-- C2 amended. For a jobId with no matching record, no job record is
mutated (both status writes are logged no-ops), but the handler never
detects the absence: the crawler loop still runs, and when the ack
connection holds the message is positively acknowledged, never negatively,
and (when the publish connection holds) a COMPLETED result event carrying
the crawl tallies is still published. -/
theorem unknown_job_behavior (jobs : List Job) (st : CrawlSt) (jid : String)
    (maxA : Option Nat) (env : Env) (habs : findJob jobs jid = none)
    (hack : env.ackOk = true) :
    (onMessage jobs st (Body.obj (some jid) maxA) env).jobs = jobs
    ∧ (onMessage jobs st (Body.obj (some jid) maxA) env).acked = true
    ∧ (onMessage jobs st (Body.obj (some jid) maxA) env).nacked = false
    ∧ (onMessage jobs st (Body.obj (some jid) maxA) env).crawlRan = true
    ∧ (env.pubOkC = true →
        (onMessage jobs st (Body.obj (some jid) maxA) env).events
          = [{ jobId := some jid, status := "COMPLETED",
               totalArticles := sumValues (crawlPhase st env (maxA.getD 50)).2,
               mediaResults := (crawlPhase st env (maxA.getD 50)).2 }]) := by
  have hjobs : jobsAfterUpdates jobs st (some jid) (maxA.getD 50) env = jobs := by
    unfold jobsAfterUpdates jobsAfterRunning
    rw [update_job_status_missing jobs jid _ _ _ _ _ _ habs,
        update_job_status_missing jobs jid _ _ _ _ _ _ habs]
  refine ⟨?_, ?_, ?_, ?_, ?_⟩ <;>
    simp [onMessage, hack, hjobs, publish]

/-- Witness for the amended C2 at an empty job store. -/
theorem unknown_job_behavior_witness :
    findJob [] "J1" = none ∧ envAllOk.ackOk = true
    ∧ ((onMessage [] emptySt (Body.obj (some "J1") (some 10)) envAllOk).jobs = []
       ∧ (onMessage [] emptySt (Body.obj (some "J1") (some 10)) envAllOk).acked = true
       ∧ (onMessage [] emptySt (Body.obj (some "J1") (some 10)) envAllOk).nacked = false
       ∧ (onMessage [] emptySt (Body.obj (some "J1") (some 10)) envAllOk).crawlRan = true
       ∧ (envAllOk.pubOkC = true →
           (onMessage [] emptySt (Body.obj (some "J1") (some 10)) envAllOk).events
             = [{ jobId := some "J1", status := "COMPLETED",
                  totalArticles := sumValues (crawlPhase emptySt envAllOk ((some 10).getD 50)).2,
                  mediaResults := (crawlPhase emptySt envAllOk ((some 10).getD 50)).2 }])) :=
  ⟨by decide, rfl,
   unknown_job_behavior [] emptySt "J1" (some 10) envAllOk (by decide) rfl⟩

/-! ## C7: Malformed payloads (refuted and amended) -/

/-- C7 counterexample. A syntactically valid JSON object with no jobId at
all (say the payload consisting only of maxArticles 10) cannot be parsed
into a jobId, yet it is not dropped: jobId parses to None, the job-store
writes are no-ops, the crawler loop runs, a COMPLETED event with a null
jobId is published, and the message is positively acknowledged, never
negatively. -/
theorem missing_jobid_ack_counterexample :
    (onMessage [] emptySt (Body.obj none (some 10)) envAllOk).acked = true
    ∧ (onMessage [] emptySt (Body.obj none (some 10)) envAllOk).nacked = false
    ∧ (onMessage [] emptySt (Body.obj none (some 10)) envAllOk).crawlRan = true
    ∧ (onMessage [] emptySt (Body.obj none (some 10)) envAllOk).events
        = [{ jobId := none, status := "COMPLETED", totalArticles := 0,
             mediaResults := [("hankyung", 0), ("mk", 0), ("edaily", 0),
                              ("herald", 0), ("chosunbiz", 0), ("yahoo", 0)] }] := by
  decide

/-- C7 amended. Only a payload whose parsing raises (invalid JSON, or a
body that is not an object) is treated as malformed: it is logged and
negatively-acknowledged with no redelivery, no job record is touched, no
crawl is run, no result event is published and the message is never
positively acknowledged. A valid JSON object merely missing jobId is not
dropped (see the counterexample). -/
theorem unparseable_payload_dropped (jobs : List Job) (st : CrawlSt) (env : Env) :
    onMessage jobs st Body.invalid env
      = { jobs := jobs, articles := st.articles, events := [],
          acked := false, nacked := env.nackOk, crawlRan := false } := rfl

/-! ## Event and store characterizations of the except branch -/

/-- Every event list delivered by publish is either empty or the single
built message. -/
theorem mem_publish (ev : ResultEvent) (jobId : Option String) (s : String)
    (t : Nat) (mr : Option (List (String × Nat))) (ok : Bool)
    (h : ev ∈ publish jobId s t mr ok) :
    ev = { jobId := jobId, status := s, totalArticles := t,
           mediaResults := mr.getD [] } := by
  cases ok
  · simp [publish] at h
  · simp [publish] at h
    exact h

/-- The except branch delivers either no further event or exactly the
FAILED publish. -/
theorem handleException_events (jobs : List Job) (articles : List Article)
    (events : List ResultEvent) (jobId : Option String) (cr : Bool) (env : Env) :
    (handleException jobs articles events jobId cr env).events = events
    ∨ (handleException jobs articles events jobId cr env).events
        = events ++ publish jobId "FAILED" 0 none env.pubOkF := by
  unfold handleException
  cases jobId with
  | none => exact Or.inl rfl
  | some jid =>
    by_cases h1 : (jid == "") = true
    · simp [h1]
    · by_cases h2 : ((if env.rereadOk then statusOf jobs jid else none)
          == some "COMPLETED") = true
      · simp [h1, h2]
      · simp [h1, h2]

/-- Every event of the except branch is an inherited event or the default
FAILED message. -/
theorem handleException_event_shape (jobs : List Job) (articles : List Article)
    (events : List ResultEvent) (jobId : Option String) (cr : Bool) (env : Env)
    (ev : ResultEvent)
    (hev : ev ∈ (handleException jobs articles events jobId cr env).events) :
    ev ∈ events
    ∨ ev = { jobId := jobId, status := "FAILED", totalArticles := 0,
             mediaResults := [] } := by
  rcases handleException_events jobs articles events jobId cr env with he | he
  · rw [he] at hev
    exact Or.inl hev
  · rw [he] at hev
    rcases List.mem_append.1 hev with h | h
    · exact Or.inl h
    · exact Or.inr (mem_publish ev jobId "FAILED" 0 none env.pubOkF h)

/-- The job store the except branch leaves behind, in closed form. -/
theorem handleException_jobs (jobs : List Job) (articles : List Article)
    (events : List ResultEvent) (jobId : Option String) (cr : Bool) (env : Env) :
    (handleException jobs articles events jobId cr env).jobs
      = (match jobId with
         | some jid =>
           if jid == "" then jobs
           else if (if env.rereadOk then statusOf jobs jid else none)
               == some "COMPLETED" then jobs
           else update_job_status jobs jobId "FAILED" 0 none (some env.errMsg)
                  env.now env.dbOkF
         | none => jobs) := by
  unfold handleException
  cases jobId with
  | none => rfl
  | some jid =>
    by_cases h1 : (jid == "") = true
    · simp [h1]
    · by_cases h2 : ((if env.rereadOk then statusOf jobs jid else none)
          == some "COMPLETED") = true
      · simp [h1, h2]
      · simp [h1, h2]

/-- The except branch never touches the article store. -/
theorem handleException_articles (jobs : List Job) (articles : List Article)
    (events : List ResultEvent) (jobId : Option String) (cr : Bool) (env : Env) :
    (handleException jobs articles events jobId cr env).articles = articles := by
  unfold handleException
  cases jobId with
  | none => rfl
  | some jid =>
    by_cases h1 : (jid == "") = true
    · simp [h1]
    · by_cases h2 : ((if env.rereadOk then statusOf jobs jid else none)
          == some "COMPLETED") = true
      · simp [h1, h2]
      · simp [h1, h2]

/-- Every event one _on_message invocation delivers is either the COMPLETED
message built from the coordinator mapping or the default FAILED message. -/
theorem onMessage_event_shape (jobs : List Job) (st : CrawlSt) (body : Body)
    (env : Env) (ev : ResultEvent)
    (hev : ev ∈ (onMessage jobs st body env).events) :
    (∃ jobId maxA, body = Body.obj jobId maxA
       ∧ ev = { jobId := jobId, status := "COMPLETED",
                totalArticles := sumValues (crawlPhase st env (maxA.getD 50)).2,
                mediaResults := (crawlPhase st env (maxA.getD 50)).2 })
    ∨ (∃ jobId, ev = { jobId := jobId, status := "FAILED", totalArticles := 0,
                       mediaResults := [] }) := by
  cases body with
  | invalid => simp [onMessage] at hev
  | obj jobId maxA =>
    cases hack : env.ackOk with
    | true =>
      simp only [onMessage, hack, if_true] at hev
      have h := mem_publish ev jobId "COMPLETED" _ _ _ hev
      exact Or.inl ⟨jobId, maxA, rfl, h⟩
    | false =>
      simp only [onMessage, hack, Bool.false_eq_true, if_false] at hev
      rcases handleException_event_shape _ _ _ _ _ _ ev hev with h | h
      · have h2 := mem_publish ev jobId "COMPLETED" _ _ _ h
        exact Or.inl ⟨jobId, maxA, rfl, h2⟩
      · exact Or.inr ⟨jobId, h⟩

/-! ## C1: Reconciliation never downgrades COMPLETED -/

/-- C1. If an exception is caught by the message handler (basic_ack raised
after the COMPLETED write) and the re-read succeeds and finds the persisted
status already COMPLETED, the catch block mutates nothing further: the
final job store is exactly the store at the catch, the status stays
COMPLETED, and every event this invocation delivered is a COMPLETED event,
so no FAILED result event is published for the job. -/
theorem completed_status_never_downgraded (jobs : List Job) (st : CrawlSt)
    (jid : String) (maxA : Option Nat) (env : Env)
    (hjid : (jid == "") = false) (hack : env.ackOk = false)
    (hre : env.rereadOk = true)
    (hst : statusOf (jobsAfterUpdates jobs st (some jid) (maxA.getD 50) env) jid
        = some "COMPLETED") :
    (onMessage jobs st (Body.obj (some jid) maxA) env).jobs
      = jobsAfterUpdates jobs st (some jid) (maxA.getD 50) env
    ∧ statusOf (onMessage jobs st (Body.obj (some jid) maxA) env).jobs jid
        = some "COMPLETED"
    ∧ (∀ ev ∈ (onMessage jobs st (Body.obj (some jid) maxA) env).events,
        ev.status = "COMPLETED") := by
  have key : onMessage jobs st (Body.obj (some jid) maxA) env
      = handleException (jobsAfterUpdates jobs st (some jid) (maxA.getD 50) env)
          (crawlPhase st env (maxA.getD 50)).1.articles
          (publish (some jid) "COMPLETED"
            (sumValues (crawlPhase st env (maxA.getD 50)).2)
            (some (crawlPhase st env (maxA.getD 50)).2) env.pubOkC)
          (some jid) true env := by
    simp only [onMessage, hack, Bool.false_eq_true, if_false]
  have hjobs : (onMessage jobs st (Body.obj (some jid) maxA) env).jobs
      = jobsAfterUpdates jobs st (some jid) (maxA.getD 50) env := by
    rw [key, handleException_jobs]
    simp [hjid, hre, hst]
  refine ⟨hjobs, ?_, ?_⟩
  · rw [hjobs]
    exact hst
  · intro ev hev
    rcases onMessage_event_shape jobs st (Body.obj (some jid) maxA) env ev hev
      with ⟨jobId2, maxA2, hbody, hc⟩ | ⟨jobId2, hf⟩
    · rw [hc]
    · exfalso
      rw [key] at hev
      rcases handleException_events (jobsAfterUpdates jobs st (some jid) (maxA.getD 50) env)
          (crawlPhase st env (maxA.getD 50)).1.articles
          (publish (some jid) "COMPLETED"
            (sumValues (crawlPhase st env (maxA.getD 50)).2)
            (some (crawlPhase st env (maxA.getD 50)).2) env.pubOkC)
          (some jid) true env with he | he
      · rw [he] at hev
        have h2 := mem_publish ev (some jid) "COMPLETED" _ _ _ hev
        rw [hf] at h2
        have : ("FAILED" : String) = "COMPLETED" := congrArg ResultEvent.status h2
        exact absurd this (by decide)
      · have hguard : (handleException (jobsAfterUpdates jobs st (some jid) (maxA.getD 50) env)
            (crawlPhase st env (maxA.getD 50)).1.articles
            (publish (some jid) "COMPLETED"
              (sumValues (crawlPhase st env (maxA.getD 50)).2)
              (some (crawlPhase st env (maxA.getD 50)).2) env.pubOkC)
            (some jid) true env).events
            = publish (some jid) "COMPLETED"
                (sumValues (crawlPhase st env (maxA.getD 50)).2)
                (some (crawlPhase st env (maxA.getD 50)).2) env.pubOkC := by
          unfold handleException
          simp [hjid, hre, hst]
        rw [hguard] at hev
        have h2 := mem_publish ev (some jid) "COMPLETED" _ _ _ hev
        rw [hf] at h2
        have : ("FAILED" : String) = "COMPLETED" := congrArg ResultEvent.status h2
        exact absurd this (by decide)

/-- Witness for C1: a PENDING job crawled to COMPLETED, then the ack lost. -/
theorem completed_status_never_downgraded_witness :
    (("J1" == "") = false) ∧ (envLostAck.ackOk = false)
    ∧ (envLostAck.rereadOk = true)
    ∧ statusOf (jobsAfterUpdates [jobPending] emptySt (some "J1")
        ((some 10 : Option Nat).getD 50) envLostAck) "J1" = some "COMPLETED"
    ∧ ((onMessage [jobPending] emptySt (Body.obj (some "J1") (some 10)) envLostAck).jobs
        = jobsAfterUpdates [jobPending] emptySt (some "J1")
            ((some 10 : Option Nat).getD 50) envLostAck
       ∧ statusOf (onMessage [jobPending] emptySt (Body.obj (some "J1") (some 10))
           envLostAck).jobs "J1" = some "COMPLETED"
       ∧ (∀ ev ∈ (onMessage [jobPending] emptySt (Body.obj (some "J1") (some 10))
            envLostAck).events, ev.status = "COMPLETED")) :=
  ⟨by decide, rfl, rfl, by decide,
   completed_status_never_downgraded [jobPending] emptySt "J1" (some 10) envLostAck
     (by decide) rfl rfl (by decide)⟩

/-! ## C6: Published totals equal the sum of mediaResults -/

/-- C6. For every result event an invocation delivers, the sum of the
mediaResults values equals totalArticles; and on the success path the
handler publishes exactly one COMPLETED event whose totalArticles is
sum(mapping.values()) over the coordinator mapping and whose mediaResults
is that same mapping. -/
theorem event_total_matches_media_sum (jobs : List Job) (st : CrawlSt)
    (body : Body) (env : Env) :
    (∀ ev ∈ (onMessage jobs st body env).events,
        sumValues ev.mediaResults = ev.totalArticles)
    ∧ (∀ jobId maxA, body = Body.obj jobId maxA → env.ackOk = true →
        env.pubOkC = true →
        (onMessage jobs st body env).events
          = [{ jobId := jobId, status := "COMPLETED",
               totalArticles := sumValues (crawlPhase st env (maxA.getD 50)).2,
               mediaResults := (crawlPhase st env (maxA.getD 50)).2 }]) := by
  constructor
  · intro ev hev
    rcases onMessage_event_shape jobs st body env ev hev
      with ⟨jobId, maxA, hbody, hc⟩ | ⟨jobId, hf⟩
    · rw [hc]
    · rw [hf]
      rfl
  · intro jobId maxA hbody hack hpub
    subst hbody
    simp [onMessage, hack, hpub, publish]

/-! ## C9: Best-effort, non-fatal publication -/

/-- C9. publish delivers at most one message per call with no retry and,
being a total function, never raises to its caller; failing both publish
connections changes neither the final job store nor the final article
store of any invocation; and when the ack connection holds, the message is
still positively acknowledged even with the COMPLETED publish failing. -/
theorem publish_best_effort (jobs : List Job) (st : CrawlSt) (body : Body)
    (env : Env) :
    (∀ (jobId : Option String) (s : String) (t : Nat)
        (mr : Option (List (String × Nat))) (ok : Bool),
        (publish jobId s t mr ok).length ≤ 1)
    ∧ (onMessage jobs st body { env with pubOkC := false, pubOkF := false }).jobs
        = (onMessage jobs st body env).jobs
    ∧ (onMessage jobs st body { env with pubOkC := false, pubOkF := false }).articles
        = (onMessage jobs st body env).articles
    ∧ (env.ackOk = true → ∀ jobId maxA, body = Body.obj jobId maxA →
        (onMessage jobs st body { env with pubOkC := false }).acked = true) := by
  refine ⟨?_, ?_, ?_, ?_⟩
  · intro jobId s t mr ok
    cases ok <;> simp [publish]
  · cases body with
    | invalid => rfl
    | obj jobId maxA =>
      cases hack : env.ackOk with
      | true =>
        simp only [onMessage, hack, if_true]
        rfl
      | false =>
        simp only [onMessage, hack, Bool.false_eq_true, if_false]
        rw [handleException_jobs, handleException_jobs]
        rfl
  · cases body with
    | invalid => rfl
    | obj jobId maxA =>
      cases hack : env.ackOk with
      | true =>
        simp only [onMessage, hack, if_true]
        rfl
      | false =>
        simp only [onMessage, hack, Bool.false_eq_true, if_false]
        rw [handleException_articles, handleException_articles]
        rfl
  · intro hack jobId maxA hbody
    subst hbody
    simp [onMessage, hack]

/-! ## C10: FAILED events carry only the defaults -/

/-- C10. Every FAILED result event the consumer delivers carries
totalArticles 0 and an empty mediaResults mapping, whatever articles had
already been inserted before the failure: partial per-source counts are
never reported in a FAILED event. -/
theorem failed_event_defaults (jobs : List Job) (st : CrawlSt) (body : Body)
    (env : Env) (ev : ResultEvent)
    (hev : ev ∈ (onMessage jobs st body env).events)
    (hst : ev.status = "FAILED") :
    ev.totalArticles = 0 ∧ ev.mediaResults = [] := by
  rcases onMessage_event_shape jobs st body env ev hev
    with ⟨jobId, maxA, hbody, hc⟩ | ⟨jobId, hf⟩
  · rw [hc] at hst
    have h2 : ("COMPLETED" : String) = "FAILED" := hst
    exact absurd h2 (by decide)
  · rw [hf]
    exact ⟨rfl, rfl⟩

/-- Witness for C10: a run where hankyung inserted one article before the
ack was lost on an absent job, so a FAILED event was delivered. -/
theorem failed_event_defaults_witness :
    ({ jobId := some "J1", status := "FAILED", totalArticles := 0,
       mediaResults := [] } : ResultEvent)
      ∈ (onMessage [] emptySt (Body.obj (some "J1") (some 10)) envFailing).events
    ∧ ({ jobId := some "J1", status := "FAILED", totalArticles := 0,
         mediaResults := [] } : ResultEvent).status = "FAILED"
    ∧ (({ jobId := some "J1", status := "FAILED", totalArticles := 0,
          mediaResults := [] } : ResultEvent).totalArticles = 0
       ∧ ({ jobId := some "J1", status := "FAILED", totalArticles := 0,
            mediaResults := [] } : ResultEvent).mediaResults = []) :=
  ⟨by decide, rfl,
   failed_event_defaults [] emptySt (Body.obj (some "J1") (some 10)) envFailing
     { jobId := some "J1", status := "FAILED", totalArticles := 0, mediaResults := [] }
     (by decide) rfl⟩

end LucrCrawler
